import Mathlib

/-!
Shallow embedding of the persona-driven website analyzer
(`src/agents/persona_agent.py`, `src/llm/claude_client.py`,
`src/models/analysis.py`, `src/models/report.py`).

Python floats used by the scorers (0.2, 0.3, 0.8, …) only ever take small
dyadic/decimal values here; they are modelled exactly as rationals.
Python strings are modelled as Lean `String`; `str.lower()` as
`String.toLower` and the `in` substring test as an
explicit character-list containment test.  Python dicts keyed by URL are modelled as
association lists that preserve insertion order (Python 3.7+ dict
semantics): assignment to a fresh key appends, assignment to an existing
key overwrites in place.

The dataclasses in `src/models/analysis.py` lag behind the agent:
`PageAnalysis` has no `visual_analysis` field and `NavigationMemory` has
no `overall_impressions`, `next_expectations` or `visual_analysis`
attributes, yet `persona_agent.py` uses all of them.  The embedding
models the resulting exceptions faithfully: `analyze_page`'s success
path dies on its `PageAnalysis(..., visual_analysis=...)` construction,
`_update_memory` raises `AttributeError` after its first two writes, and
`navigate`'s report construction raises whenever a page was visited
(`updateMemoryRun`, `navigateLoopRun`, `navigateFinalize`,
`navigateRun`).  Component functions that do run to completion
(`should_exit`, the scorers, `_choose_next_url`, `RateLimitedLLM.invoke`,
the response parser, the `except` handler of `analyze_page`) are
modelled as the total functions they are.
-/

namespace SiteAnalyzer

/-- Infix test on character lists. -/
def charsContain (needle hay : List Char) : Bool :=
  hay.tails.any (fun t => needle.isPrefixOf t)

/-- Case-sensitive substring test: Python `needle in hay` on `str`. -/
def strContainsCS (hay needle : String) : Bool :=
  charsContain needle.data hay.data

/-- Characters of `s.lower()` (`Char.toLower` lowercases the ASCII
letters; every keyword and insight handled in this development is
ASCII, where Python `str.lower` agrees). -/
def lowerStr (s : String) : List Char :=
  s.data.map Char.toLower

/-- Case-insensitive substring test: Python `needle.lower() in hay.lower()`
(the scorers lower the haystack once and each keyword at use; lowering
both here is equivalent). -/
def strContains (hay needle : String) : Bool :=
  charsContain (lowerStr needle) (lowerStr hay)

/-- Python `str.strip()`: drop whitespace from both ends. -/
def pyStrip (s : String) : String :=
  String.mk (((s.data.dropWhile Char.isWhitespace).reverse.dropWhile Char.isWhitespace).reverse)

/-- Split a character list at every occurrence of `sep`
(Python `str.split(sep)` semantics: `n` separators yield `n+1` parts,
empty parts included). -/
def splitCharAux (sep : Char) : List Char → List (List Char)
  | [] => [[]]
  | c :: cs =>
    match splitCharAux sep cs with
    | [] => [[]]
    | cur :: rest => if c = sep then [] :: cur :: rest else (c :: cur) :: rest

/-- Python `s.split('\n')`. -/
def splitLines (s : String) : List String :=
  (splitCharAux '\n' s.data).map String.mk

/-- Python dict lookup `d.get(k, default)`. -/
def dictGet {α : Type} (d : List (String × α)) (k : String) (default : α) : α :=
  match d.find? (fun p => p.1 == k) with
  | some p => p.2
  | none => default

/-- Membership of a key in a Python dict. -/
def dictHasKey {α : Type} (d : List (String × α)) (k : String) : Bool :=
  d.any (fun p => p.1 == k)

/-- Python dict assignment `d[k] = v`: overwrite in place if the key
exists, append otherwise (insertion order preserved). -/
def dictSet {α : Type} (d : List (String × α)) (k : String) (v : α) : List (String × α) :=
  if dictHasKey d k then d.map (fun p => if p.1 == k then (k, v) else p)
  else d ++ [(k, v)]

/-- Values of a dict in insertion order (`d.values()`). -/
def dictValues {α : Type} (d : List (String × α)) : List α :=
  d.map Prod.snd

/-- Persona (`src/models/persona.py`): name, interests, needs, goals. -/
structure Persona where
  name : String
  interests : List String
  needs : List String
  goals : List String
deriving DecidableEq, Repr

/-- PageAnalysis exactly as `src/models/analysis.py:5-13` declares it:
seven fields and no `visual_analysis` (the constructions in
`persona_agent.py` that pass a `visual_analysis` keyword raise
TypeError; see `tryAnalyzePage`). -/
structure PageAnalysis where
  url : String
  summary : String
  likes : List String
  dislikes : List String
  click_reasons : List String
  next_expectations : List String
  overall_impression : String
deriving DecidableEq, Repr

/-- ExitCriteria (`src/models/analysis.py`).  Defaults:
`min_information_coverage = 0.8`, `consecutive_irrelevant_threshold = 3`;
`satisfaction_threshold` and `max_irrelevant_pages` are declared but never
read by the control flow. -/
structure ExitCriteria where
  satisfaction_threshold : ℚ := mkRat 7 10
  min_information_coverage : ℚ := mkRat 4 5
  max_irrelevant_pages : ℕ := 3
  consecutive_irrelevant_threshold : ℕ := 3
deriving DecidableEq, Repr

/-- The ExitCriteria instance `PersonaAgent.__init__` builds (all defaults). -/
def defaultExitCriteria : ExitCriteria := {}

/-- NavigationMemory exactly as `src/models/analysis.py:26-37` declares
it (`covered_topics` is a Python set, never written by the agent).  The
attributes `overall_impressions`, `next_expectations` and
`visual_analysis` that `persona_agent.py` tries to use do NOT exist:
reading them raises AttributeError (see `updateMemoryRun` and
`navigateFinalize`). -/
structure NavigationMemory where
  visited_urls : List String := []
  page_summaries : List (String × String) := []
  key_insights : List (String × List String) := []
  topic_relevance : List (String × ℚ) := []
  navigation_path : List (String × String) := []
  satisfaction_scores : List (String × ℚ) := []
  consecutive_irrelevant_pages : ℕ := 0
  found_ctas : List String := []
  covered_topics : List String := []
deriving DecidableEq, Repr

/-- Fresh NavigationMemory (`PersonaAgent.__init__`). -/
def emptyMemory : NavigationMemory := {}

/-- The insight list `_update_memory` stores for a page:
`[*likes, *dislikes, *click_reasons]`. -/
def insightsOf (a : PageAnalysis) : List String :=
  a.likes ++ a.dislikes ++ a.click_reasons

/-- Whether one need is covered by some insight recorded for some visited
page (the inner loops of `_calculate_information_coverage`). -/
def needCovered (values : List (List String)) (need : String) : Bool :=
  values.any (fun insights => insights.any (fun insight => strContains insight need))

/-- The distinct needs covered by the recorded insights: the Python code
collects covered needs into a `set`, whose size is the number of distinct
need strings covered, hence the `dedup.filter`. -/
def coveredNeeds (p : Persona) (m : NavigationMemory) : List String :=
  p.needs.dedup.filter (fun need => needCovered (dictValues m.key_insights) need)

/-- Model of `PersonaAgent._calculate_information_coverage`:
`len(covered_topics) / len(self.persona.needs)`, as an exact rational
(`mkRat a b` equals `(a : ℚ) / (b : ℚ)`, see
`informationCoverage_eq_div`).  With zero needs the Python code raises
`ZeroDivisionError`; callers model that separately. -/
def informationCoverage (p : Persona) (m : NavigationMemory) : ℚ :=
  mkRat (coveredNeeds p m).length p.needs.length

/-- The text `_calculate_relevance` scans:
`f"{summary} {' '.join(likes)} {' '.join(click_reasons)}"`. -/
def relevanceText (a : PageAnalysis) : String :=
  a.summary ++ " " ++ String.intercalate " " a.likes ++ " " ++ String.intercalate " " a.click_reasons

/-- Number of keywords of `kws` appearing (case-insensitively) in `text`. -/
def matchCount (text : String) (kws : List String) : ℕ :=
  (kws.filter (fun kw => strContains text kw)).length

/-- Model of `PersonaAgent._calculate_relevance`: +0.2 for each interest and each
need appearing (case-insensitively) in the text, clamped with
`min(1.0, score)`.  The sum of 0.2-steps is written as the exact rational
`matches/5`; `relevanceScore_eq_foldl` below proves this equal to the
literal fold of the source. -/
def relevanceScore (p : Persona) (a : PageAnalysis) : ℚ :=
  let text := relevanceText a
  min 1 (mkRat (matchCount text p.interests + matchCount text p.needs) 5)

/-- The foldl of `_calculate_relevance` transcribed literally
(`score += 0.2` per hit, starting from a given score). -/
def relevanceFold (text : String) (kws : List String) (s0 : ℚ) : ℚ :=
  kws.foldl (fun s kw => if strContains text kw then s + 1/5 else s) s0

/-- Satisfaction score computed in `_update_memory`:
`len(likes)/(len(likes)+len(dislikes)) if likes or dislikes else 0.5`,
as an exact rational (see `satisfactionScore_eq_div`). -/
def satisfactionScore (a : PageAnalysis) : ℚ :=
  if a.likes ≠ [] ∨ a.dislikes ≠ [] then
    mkRat a.likes.length (a.likes.length + a.dislikes.length)
  else mkRat 1 2

/-- Reason recorded in `navigation_path` by `_update_memory`. -/
def pathReason (m : NavigationMemory) (a : PageAnalysis) : String :=
  if m.navigation_path = [] then "Initial page"
  else match a.click_reasons with
    | r :: _ => r
    | [] => "Continued exploration"

/-- Model of the write sequence of `PersonaAgent._update_memory`
(persona_agent.py:66-88) as intended, restricted to the fields
NavigationMemory declares.  In the running program the method never gets
past line 70 — reading `self.memory.overall_impressions` raises
AttributeError, so everything from there on is dead code (see
`updateMemoryRun` for the faithful effect).  This total version is what
the component-level monotonicity claim C8 quantifies over: recording a
page appends its URL, summary, insight list, relevance, path entry and
satisfaction score. -/
def updateMemory (p : Persona) (m : NavigationMemory) (url : String)
    (a : PageAnalysis) : NavigationMemory :=
  { m with
    visited_urls := m.visited_urls ++ [url]
    page_summaries := dictSet m.page_summaries url a.summary
    key_insights := dictSet m.key_insights url (insightsOf a)
    topic_relevance := dictSet m.topic_relevance url (relevanceScore p a)
    navigation_path := m.navigation_path ++ [(url, pathReason m a)]
    satisfaction_scores := dictSet m.satisfaction_scores url (satisfactionScore a) }

/-- Model of `PersonaAgent.should_exit`: information coverage is checked first,
then the consecutive-irrelevant-pages threshold (the CTA branch is
commented out in the source). -/
def shouldExit (p : Persona) (crit : ExitCriteria) (m : NavigationMemory) :
    Bool × String :=
  if informationCoverage p m ≥ crit.min_information_coverage then
    (true, "Gathered sufficient information")
  else if m.consecutive_irrelevant_pages ≥ crit.consecutive_irrelevant_threshold then
    (true, "Website lacks relevant content")
  else (false, "")

/-- Candidate URL extraction in `_choose_next_url`:
`response.strip().split('\n')[-1].strip()`. -/
def respUrl (response : String) : String :=
  pyStrip ((splitLines (pyStrip response)).getLastD "")

/-- First unvisited link in original order (the fallback loop of
`_choose_next_url`); `none` when every link was already visited. -/
def firstUnvisited (links visited : List String) : Option String :=
  links.find? (fun link => !visited.contains link)

/-- Model of `PersonaAgent._choose_next_url`, as a function of the candidate links,
the visited set, and the completion response (`none` models the
`llm.invoke` call raising, which the function catches and turns into
`None`). -/
def chooseNextUrl (links visited : List String) (response : Option String) :
    Option String :=
  match response with
  | none => none
  | some r =>
    let url := respUrl r
    if links.contains url ∧ ¬ visited.contains url then some url
    else firstUnvisited links visited

/-! ### Rate-limited completion client (`src/llm/claude_client.py`) -/

/-- How a call to `RateLimitedLLM.invoke` can terminate: return a string,
re-raise the bare last underlying exception (`raise` in the `elif` branch),
or raise the aggregated `ValueError` built after the while loop. -/
inductive InvokeResult where
  | ok (content : String)
  | raisedLast (err : String)
  | raisedAggregate (msg : String)
deriving DecidableEq, Repr

/-- Message of the aggregated error:
`f"Failed after {max_attempts} attempts. Last error: {str(last_error)}"`
(`str(None)` is `"None"` when no attempt ever ran). -/
def aggMsg (maxAttempts : ℕ) (lastError : Option String) : String :=
  "Failed after " ++ toString maxAttempts ++ " attempts. Last error: " ++
    (match lastError with | some e => e | none => "None")

/-- Whether an `invoke` outcome is the aggregated post-loop `ValueError`. -/
def isAggregated : InvokeResult → Bool
  | .raisedAggregate _ => true
  | _ => false

/-- The `while retry_count < max_attempts` loop of `RateLimitedLLM.invoke`.
`attempt k` is the outcome of the k-th call to the underlying model
(`Except.error e` = the call raised with message `e`).  `fuel` is kept
equal to `max_attempts - retry_count`, so fuel 0 is exactly the loop
condition turning false, after which the aggregated `ValueError` is
raised.  A failure whose message contains `"rate_limit_error"` always
loops again; any other failure re-raises the bare exception once
`retry_count` has reached `max_attempts`, and otherwise sleeps and loops. -/
def invokeLoop (attempt : ℕ → Except String String) (maxAttempts : ℕ) :
    ℕ → ℕ → Option String → InvokeResult
  | 0, _, lastError => .raisedAggregate (aggMsg maxAttempts lastError)
  | fuel + 1, rc, _ =>
    match attempt rc with
    | .ok content => .ok content
    | .error e =>
      if strContainsCS e "rate_limit_error" then invokeLoop attempt maxAttempts fuel (rc + 1) (some e)
      else if maxAttempts ≤ rc + 1 then .raisedLast e
      else invokeLoop attempt maxAttempts fuel (rc + 1) (some e)

/-- Model of `RateLimitedLLM.invoke(message, max_attempts)`: starts with
`retry_count = 0`, `last_error = None`. -/
def invokeModel (attempt : ℕ → Except String String) (maxAttempts : ℕ) : InvokeResult :=
  invokeLoop attempt maxAttempts maxAttempts 0 none

/-! ### Page analyzer (`PersonaAgent.analyze_page`) -/

/-- The PageAnalysis built in the `except` handler of `analyze_page`
(the dataclass has no `visual_analysis` keyword there; the field is its
empty default). -/
def errorAnalysis (url err : String) : PageAnalysis :=
  { url := url
    summary := "Error in analysis: " ++ err
    likes := []
    dislikes := []
    click_reasons := []
    next_expectations := []
    overall_impression := "Analysis failed" }

/-- Python `str.strip('- ')`: remove leading and trailing characters
drawn from the set {'-', ' '}. -/
def stripDashSpace (s : String) : String :=
  let isCut := fun c => c = '-' ∨ c = ' '
  String.mk ((s.data.dropWhile isCut).reverse.dropWhile isCut).reverse

/-- List-field parsing in `analyze_page`:
`[x.strip('- ') for x in block.replace(label, '').strip().split('\n') if x.strip()]`. -/
def parseListField (label block : String) : List String :=
  (((block.replace label "").trim).splitOn "\n").filterMap
    (fun x => if x.trim = "" then none else some (stripDashSpace x))

/-- The section-accumulator record used while parsing the analysis
response. -/
structure ParsedAnalysis where
  summary : String := ""
  likes : List String := []
  dislikes : List String := []
  click_reasons : List String := []
  next_expectations : List String := []
  visual_analysis : List String := []
  overall_impression : String := ""
deriving Repr

/-- One step of the section loop in `analyze_page`: `inFinal` is the
`current_section == 'final'` flag.  A block starting with `VISUAL BRIEF`
fills `visual_analysis` (an `if`, not `elif`, so it also fires inside the
final section); a block containing `FINAL ASSESSMENT` sets the flag and is
otherwise skipped (`continue`); within the final section blocks are
matched by literal label prefixes, unmatched blocks are ignored. -/
def parseSection (acc : ParsedAnalysis × Bool) (block : String) :
    ParsedAnalysis × Bool :=
  let (ps, inFinal) := acc
  let ps :=
    if block.startsWith "VISUAL BRIEF" then
      { ps with visual_analysis :=
          (((block.splitOn "\n").drop 1).filterMap
            (fun x => if x.trim = "" then none else some (stripDashSpace x))) }
    else ps
  if strContainsCS block "FINAL ASSESSMENT" then (ps, true)
  else if inFinal then
    if block.startsWith "Summary:" then
      ({ ps with summary := (block.replace "Summary:" "").trim }, inFinal)
    else if block.startsWith "Likes:" then
      ({ ps with likes := parseListField "Likes:" block }, inFinal)
    else if block.startsWith "Dislikes:" then
      ({ ps with dislikes := parseListField "Dislikes:" block }, inFinal)
    else if block.startsWith "Click Reasons:" then
      ({ ps with click_reasons := parseListField "Click Reasons:" block }, inFinal)
    else if block.startsWith "Next Expectations:" then
      ({ ps with next_expectations := parseListField "Next Expectations:" block }, inFinal)
    else if block.startsWith "Overall Impression:" then
      ({ ps with overall_impression := (block.replace "Overall Impression:" "").trim }, inFinal)
    else (ps, inFinal)
  else (ps, inFinal)

/-- The response parser of `analyze_page`: split the completion response
on blank lines (`split('\n\n')`) and run the section loop, yielding the
`parsed` dict.  The PageAnalysis construction from it is a separate step
that raises (see `tryAnalyzePage`). -/
def parseResponse (response : String) : ParsedAnalysis :=
  ((response.splitOn "\n\n").foldl parseSection (({} : ParsedAnalysis), false)).1

/-- Outcome of a Python expression: a value, or a raised exception with
its message. -/
inductive PyResult (α : Type) where
  | ok (a : α)
  | exn (err : String)
deriving DecidableEq, Repr

/-- The `except` branch of the inner try in `analyze_page`.  The branch
recomputes truncated content (`main_content[:1000]`, `headers[:200]`) and
then executes `prompt["content"] = prompt["content"].replace(...)` — but
`prompt` is a `str`, so reading `prompt["content"]` raises `TypeError`
("string indices must be integers") before the
`llm.invoke(prompt, max_attempts=3)` call below it can run.
`secondInvoke`, the outcome that call would have, is never consulted. -/
def retryBranch (_secondInvoke : Except String String) : PyResult String :=
  PyResult.exn "string indices must be integers"

/-- Message of the TypeError raised by the PageAnalysis construction at
persona_agent.py:283-292: the call passes `visual_analysis=...`, a
keyword the dataclass in `src/models/analysis.py:5-13` does not declare. -/
def visualAnalysisKwargError : String :=
  "__init__() got an unexpected keyword argument 'visual_analysis'"

/-- The body of the outer `try` of `analyze_page`, as a function of the
outcome of `llm.invoke(prompt, max_attempts=2)` (`firstInvoke`) and of the
retry invocation the except branch would make (`secondInvoke`).  Parsing
itself is tolerant and never raises, but the success path then constructs
`PageAnalysis(..., visual_analysis=parsed.get(...))`, which raises
TypeError because the dataclass has no such field — so the body fails on
every path. -/
def tryAnalyzePage (_url : String) (firstInvoke secondInvoke : Except String String) :
    PyResult PageAnalysis :=
  match firstInvoke with
  | .ok response =>
    let _parsed := parseResponse response
    .exn visualAnalysisKwargError
  | .error _ =>
    match retryBranch secondInvoke with
    | .ok response =>
      let _parsed := parseResponse response
      .exn visualAnalysisKwargError
    | .exn e => .exn e

/-- Model of `PersonaAgent.analyze_page`: the outer `try`/`except` — any exception
from the body is converted into the failure PageAnalysis. -/
def analyzePage (url : String) (firstInvoke secondInvoke : Except String String) :
    PageAnalysis :=
  match tryAnalyzePage url firstInvoke secondInvoke with
  | .ok a => a
  | .exn e => errorAnalysis url e

/-- One page as a tick of `navigate` observes it: the links
`crawler.extract_content` returned, and the outcomes of the two
`llm.invoke` calls `analyze_page` can make for it (`Except.error e` = the
call raised with message `e`). -/
structure PageView where
  links : List String
  firstInvoke : Except String String
  secondInvoke : Except String String
deriving Repr

/-- The external world one `navigate` run interacts with:
`fetch url` is `crawler.extract_content(url)` (`Except.error msg` models
the crawler raising with message `msg`), and `finalConclusion` is the text
`_generate_final_conclusion` produces when it completes (free-form
completion output, or its literal error string). -/
structure NavEnv where
  fetch : String → Except String PageView
  finalConclusion : String

/-- Message of the AttributeError raised at persona_agent.py:70:
`self.memory.overall_impressions` does not exist on the NavigationMemory
of `src/models/analysis.py:26-37`. -/
def overallImpressionsAttrError : String :=
  "'NavigationMemory' object has no attribute 'overall_impressions'"

/-- Message of the AttributeError raised at persona_agent.py:362 when the
report construction reads `self.memory.next_expectations`. -/
def nextExpectationsAttrError : String :=
  "'NavigationMemory' object has no attribute 'next_expectations'"

/-- The faithful effect of calling `_update_memory`
(persona_agent.py:66-88): line 68 appends the URL to `visited_urls` and
line 69 writes `page_summaries[url]`, both on the live memory object;
line 70 then reads `self.memory.overall_impressions` and raises
AttributeError.  The result is the mutated memory together with the
exception message; the writes of lines 71-88 (`key_insights`,
`topic_relevance`, `navigation_path`, the satisfaction score) never
execute. -/
def updateMemoryRun (m : NavigationMemory) (url : String) (a : PageAnalysis) :
    NavigationMemory × String :=
  ({ m with
      visited_urls := m.visited_urls ++ [url]
      page_summaries := dictSet m.page_summaries url a.summary },
    overallImpressionsAttrError)

/-- The `for page_num in range(max_pages)` loop of `PersonaAgent.navigate`
under the real models, returning the final memory and the `exit_reason`
variable.  A tick in source order: `extract_content` (a raise is caught
by the outer handler, reason `"Error: ..."`); `should_exit` (raises
ZeroDivisionError for a persona with zero needs; otherwise completes, its
value irrelevant — the stop branch at line 314 is only reached after
`_update_memory`); `analyze_page` (total, always returns its failure
analysis); `_update_memory`, which performs its two writes and raises —
the outer handler turns that into the exit reason.  No tick ever
completes, so the loop never breaks normally, never updates the
irrelevance counter, never consults the links or the chooser, and never
recurses: every run visits at most one page. -/
def navigateLoopRun (p : Persona) (crit : ExitCriteria) (env : NavEnv)
    (m : NavigationMemory) (current : String) : ℕ → NavigationMemory × String
  | 0 => (m, "")
  | _fuel + 1 =>
    match env.fetch current with
    | .error msg => (m, "Error: " ++ msg)
    | .ok page =>
      if p.needs.length = 0 then
        -- should_exit → _calculate_information_coverage divides by
        -- len(needs): ZeroDivisionError, caught by navigate's handler.
        (m, "Error: division by zero")
      else
        let _stopReason := shouldExit p crit m
        let analysis := analyzePage current page.firstInvoke page.secondInvoke
        let mr := updateMemoryRun m current analysis
        (mr.1, "Error: " ++ mr.2)

/-- AnalysisReport (`src/models/report.py`), restricted to the fields
`navigate` fills (timestamp omitted). -/
structure AnalysisReport where
  persona_name : String
  start_url : String
  pages_analyzed : List PageAnalysis
  navigation_path : List (String × String)
  exit_reason : String
  information_coverage : ℚ
  found_ctas : List String
  final_conclusion : String
deriving DecidableEq, Repr

/-- Model of `navigate`'s `finally` block under the real models.  First
`_generate_final_conclusion()` runs: with zero needs its coverage call
re-raises ZeroDivisionError out of `navigate`; otherwise it completes
(its try/except guards the completion call).  Then the report is built:
with at least one visited page the `pages_analyzed` comprehension reads
`self.memory.next_expectations` (persona_agent.py:362) and raises
AttributeError out of `navigate` — and would next hit the
`visual_analysis=` TypeError at line 363.  Only a run that visited no
page returns a report, necessarily with empty `pages_analyzed`. -/
def navigateFinalize (p : Persona) (env : NavEnv) (start_url exit_reason : String)
    (m : NavigationMemory) : PyResult AnalysisReport :=
  if p.needs.length = 0 then .exn "division by zero"
  else if m.visited_urls ≠ [] then .exn nextExpectationsAttrError
  else
    .ok
      { persona_name := p.name
        start_url := start_url
        pages_analyzed := []
        navigation_path := m.navigation_path
        exit_reason := exit_reason
        information_coverage := informationCoverage p m
        found_ctas := m.found_ctas
        final_conclusion := env.finalConclusion }

/-- Model of `PersonaAgent.navigate`: run the loop from a fresh memory,
then the `finally` block.  The outcome is a raised exception whenever the
run visited a page (or has a zero-need persona); a report is returned
only for runs that visited nothing. -/
def navigateRun (p : Persona) (crit : ExitCriteria) (env : NavEnv)
    (start_url : String) (max_pages : ℕ) : PyResult AnalysisReport :=
  let run := navigateLoopRun p crit env emptyMemory start_url max_pages
  navigateFinalize p env start_url run.2 run.1

/-!
## Concrete runs

Small closed instances used to witness and to refute the spec's
end-to-end scenarios.
-/

/-- A PageAnalysis with every text field empty. -/
def emptyAnalysis (url : String) : PageAnalysis :=
  { url := url
    summary := ""
    likes := []
    dislikes := []
    click_reasons := []
    next_expectations := []
    overall_impression := "" }

/-- Scenario A persona: needs `["pricing", "docs"]`. -/
def persPricingDocs : Persona :=
  { name := "Pat", interests := [], needs := ["pricing", "docs"], goals := [] }

/-- An analysis whose likes mention "pricing" (used for the coverage
monotonicity witness). -/
def analysisA1 : PageAnalysis := { emptyAnalysis "p1" with likes := ["pricing info"] }

/-- Persona with the single need "pricing". -/
def persPricing : Persona :=
  { name := "Quinn", interests := [], needs := ["pricing"], goals := [] }

/-- Environment whose first page fetch succeeds (links present, both
completion calls succeeding) — enough for a run to reach
`_update_memory` and die there. -/
def envScenarioA : NavEnv :=
  { fetch := fun u =>
      if u = "p1" then
        .ok { links := ["p2"], firstInvoke := .ok "some analysis text",
              secondInvoke := .ok "" }
      else .error "unknown url"
    finalConclusion := "conclusion" }

/-- Environment whose every fetch raises — the only kind of run in which
`navigate` returns a report at all. -/
def envFetchFail : NavEnv :=
  { fetch := fun _ => .error "fetch failed"
    finalConclusion := "conclusion" }

/-- Persona with five interests and five needs (for the clamping
witness). -/
def persTen : Persona :=
  { name := "Tia"
    interests := ["aa", "bb", "cc", "dd", "ee"]
    needs := ["ff", "gg", "hh", "ii", "jj"]
    goals := [] }

/-- Analysis whose summary contains all ten keywords of `persTen`. -/
def analysisTen : PageAnalysis :=
  { emptyAnalysis "t" with summary := "aa bb cc dd ee ff gg hh ii jj" }

/-!
## Bridging lemmas

The definitions above use `mkRat`/match-count forms so that concrete runs
evaluate inside the kernel; these lemmas prove them equal to the literal
arithmetic of the Python source.
-/

/-- The `mkRat` in `informationCoverage` is exactly the source's division. -/
theorem informationCoverage_eq_div (p : Persona) (m : NavigationMemory) :
    informationCoverage p m = ((coveredNeeds p m).length : ℚ) / (p.needs.length : ℚ) := by
  simp [informationCoverage, Rat.mkRat_eq_div]

theorem relevanceFold_eq (text : String) (kws : List String) (s0 : ℚ) :
    relevanceFold text kws s0 = s0 + (matchCount text kws : ℚ) / 5 := by
  induction kws generalizing s0 with
  | nil => simp [relevanceFold, matchCount]
  | cons k ks ih =>
    simp only [relevanceFold] at ih ⊢
    rw [List.foldl_cons]
    by_cases h : strContains text k = true
    · rw [if_pos h, ih]
      have hm : matchCount text (k :: ks) = matchCount text ks + 1 := by
        simp [matchCount, List.filter_cons, h]
      rw [hm]
      push_cast
      ring
    · rw [if_neg h, ih]
      have hm : matchCount text (k :: ks) = matchCount text ks := by
        simp [matchCount, List.filter_cons, h]
      rw [hm]

/-- The definition `relevanceScore` equals the literal two-fold-then-clamp computation of
`_calculate_relevance`. -/
theorem relevanceScore_eq_foldl (p : Persona) (a : PageAnalysis) :
    relevanceScore p a =
      min 1 (relevanceFold (relevanceText a) p.needs
        (relevanceFold (relevanceText a) p.interests 0)) := by
  rw [relevanceFold_eq, relevanceFold_eq]
  simp only [relevanceScore, Rat.mkRat_eq_div]
  push_cast
  ring_nf

/-- The `mkRat`s in `satisfactionScore` are exactly the source's arithmetic. -/
theorem satisfactionScore_eq_div (a : PageAnalysis) :
    satisfactionScore a =
      if a.likes ≠ [] ∨ a.dislikes ≠ [] then
        (a.likes.length : ℚ) / ((a.likes.length : ℚ) + (a.dislikes.length : ℚ))
      else 1/2 := by
  simp only [satisfactionScore, Rat.mkRat_eq_div]
  norm_num

/-!
## Helper lemmas
-/

/-- Assigning a fresh key appends its value to the value list. -/
theorem dictValues_set_fresh {α : Type} (d : List (String × α)) (k : String) (v : α)
    (h : dictHasKey d k = false) : dictValues (dictSet d k v) = dictValues d ++ [v] := by
  simp [dictSet, h, dictValues]

/-- The chooser never fabricates a URL: a returned URL is one of the
candidate links and is not yet visited. -/
theorem chooseNextUrl_mem {links visited : List String} {resp : Option String}
    {u : String} (h : chooseNextUrl links visited resp = some u) :
    u ∈ links ∧ u ∉ visited := by
  cases resp with
  | none => simp [chooseNextUrl] at h
  | some r =>
    simp only [chooseNextUrl] at h
    by_cases hc : links.contains (respUrl r) = true ∧ ¬ visited.contains (respUrl r) = true
    · rw [if_pos hc] at h
      cases h
      constructor
      · simpa using hc.1
      · simpa using hc.2
    · rw [if_neg hc] at h
      have hfind := List.find?_some h
      have hmem := List.mem_of_find?_eq_some h
      constructor
      · exact hmem
      · simpa using hfind

/-- When every attempt up to `max_attempts` fails, the retry loop of
`RateLimitedLLM.invoke` terminates on the last error: with the aggregated
`ValueError` when that error is a rate-limit rejection (the loop condition
simply runs out), and by re-raising the bare last exception otherwise. -/
theorem invokeLoop_all_fail (attempt : ℕ → Except String String) (err : ℕ → String)
    (maxA : ℕ) (hfail : ∀ i, i < maxA → attempt i = .error (err i)) :
    ∀ (fuel rc : ℕ) (lastE : Option String), fuel + rc = maxA → rc < maxA →
      invokeLoop attempt maxA fuel rc lastE =
        if strContainsCS (err (maxA - 1)) "rate_limit_error" = true then
          .raisedAggregate (aggMsg maxA (some (err (maxA - 1))))
        else .raisedLast (err (maxA - 1)) := by
  intro fuel
  induction fuel with
  | zero =>
    intro rc lastE hsum hlt
    omega
  | succ f ih =>
    intro rc lastE hsum hlt
    have hrc := hfail rc hlt
    simp only [invokeLoop, hrc]
    by_cases hf : f = 0
    · subst hf
      have hrc1 : rc = maxA - 1 := by omega
      subst hrc1
      by_cases hrl : strContainsCS (err (maxA - 1)) "rate_limit_error" = true
      · rw [if_pos hrl, if_pos hrl]
        simp [invokeLoop]
      · rw [if_neg hrl, if_neg hrl, if_pos (by omega : maxA ≤ maxA - 1 + 1)]
    · by_cases hrl : strContainsCS (err rc) "rate_limit_error" = true
      · rw [if_pos hrl]
        exact ih (rc + 1) (some (err rc)) (by omega) (by omega)
      · rw [if_neg hrl, if_neg (by omega : ¬ maxA ≤ rc + 1)]
        exact ih (rc + 1) (some (err rc)) (by omega) (by omega)

/-!
## Claims
-/

/-- C1: the code cannot perform scenario A at all.  On the run's very
first page `_update_memory` raises AttributeError at persona_agent.py:70
(NavigationMemory has no `overall_impressions` attribute), so
`key_insights` is never written, information coverage stays 0, no second
page is ever visited, and `navigate`'s report construction then raises
AttributeError at line 362 — the engine never stops with "Gathered
sufficient information" and never returns a report with entries in
`pages_analyzed`. -/
theorem claim_C1_never_records :
    persPricingDocs.needs = ["pricing", "docs"] ∧
    (navigateLoopRun persPricingDocs defaultExitCriteria envScenarioA emptyMemory
      "p1" 100).1.key_insights = [] ∧
    informationCoverage persPricingDocs
      (navigateLoopRun persPricingDocs defaultExitCriteria envScenarioA emptyMemory
        "p1" 100).1 = 0 ∧
    (navigateLoopRun persPricingDocs defaultExitCriteria envScenarioA emptyMemory
      "p1" 100).2 = "Error: " ++ overallImpressionsAttrError ∧
    navigateRun persPricingDocs defaultExitCriteria envScenarioA "p1" 100 =
      PyResult.exn nextExpectationsAttrError := by
  decide

/-- C2: the code cannot perform scenario B at all.  Every run dies inside
`_update_memory` on its first page, so the counter update at
persona_agent.py:328 is dead code: `consecutive_irrelevant_pages` stays 0
in every run, at most one page is ever visited, and `navigate` raises
from its finally block instead of stopping with "Website lacks relevant
content". -/
theorem claim_C2_counter_never_increments :
    (navigateLoopRun persPricing defaultExitCriteria envScenarioA emptyMemory
      "p1" 100).1.consecutive_irrelevant_pages = 0 ∧
    (navigateLoopRun persPricing defaultExitCriteria envScenarioA emptyMemory
      "p1" 100).1.visited_urls = ["p1"] ∧
    (navigateLoopRun persPricing defaultExitCriteria envScenarioA emptyMemory
      "p1" 100).2 = "Error: " ++ overallImpressionsAttrError ∧
    navigateRun persPricing defaultExitCriteria envScenarioA "p1" 100 =
      PyResult.exn nextExpectationsAttrError := by
  decide

/-- C3 counterexample: a run whose first page fetch succeeds exits the
loop with `visited_urls` and `page_summaries` of length 1 but an empty
`navigation_path` — `_update_memory` raises at persona_agent.py:70 after
its first two writes and before the `navigation_path` append at line 82,
so the three lengths are 1, 1, 0 at this exit point and the claimed
three-way equality fails. -/
theorem claim_C3_counterexample :
    (navigateLoopRun persPricingDocs defaultExitCriteria envScenarioA emptyMemory
      "p1" 100).1.visited_urls.length = 1 ∧
    (navigateLoopRun persPricingDocs defaultExitCriteria envScenarioA emptyMemory
      "p1" 100).1.page_summaries.length = 1 ∧
    (navigateLoopRun persPricingDocs defaultExitCriteria envScenarioA emptyMemory
      "p1" 100).1.navigation_path.length = 0 ∧
    ¬((navigateLoopRun persPricingDocs defaultExitCriteria envScenarioA emptyMemory
      "p1" 100).1.navigation_path.length =
      (navigateLoopRun persPricingDocs defaultExitCriteria envScenarioA emptyMemory
        "p1" 100).1.visited_urls.length) := by
  decide

/-- C3 (amended): at every exit point
`|visited_urls| = |page_summaries|` — these are the two writes of
`_update_memory` that precede its AttributeError — but `navigation_path`
is never appended (the append at persona_agent.py:82 is unreachable), so
its length is 0 at every exit point; the claimed three-way equality holds
only for runs that visit no page, and no run visits more than one. -/
theorem claim_C3_exit_lengths (p : Persona) (crit : ExitCriteria) (env : NavEnv)
    (start : String) (max_pages : ℕ) :
    (navigateLoopRun p crit env emptyMemory start max_pages).1.page_summaries.length =
      (navigateLoopRun p crit env emptyMemory start max_pages).1.visited_urls.length ∧
    (navigateLoopRun p crit env emptyMemory start max_pages).1.navigation_path.length = 0 ∧
    (navigateLoopRun p crit env emptyMemory start max_pages).1.visited_urls.length ≤ 1 := by
  cases max_pages with
  | zero => exact ⟨rfl, rfl, Nat.zero_le 1⟩
  | succ f =>
    simp only [navigateLoopRun]
    split
    · exact ⟨rfl, rfl, Nat.zero_le 1⟩
    · split
      · exact ⟨rfl, rfl, Nat.zero_le 1⟩
      · refine ⟨?_, ?_, ?_⟩
        · simp [updateMemoryRun, dictSet, dictHasKey, emptyMemory]
        · simp [updateMemoryRun, emptyMemory]
        · simp [updateMemoryRun, emptyMemory]

/-- C4: the Next-Link Chooser returns either none or a URL that is among
the supplied links and not yet visited; when the completion's chosen URL
is invalid it falls back to the first link, in the original order of
`links`, not in `visited_urls`. -/
theorem claim_C4_chooser (links visited : List String) (resp : Option String) :
    (∀ u, chooseNextUrl links visited resp = some u → u ∈ links ∧ u ∉ visited) ∧
    (∀ r, resp = some r →
      ¬(respUrl r ∈ links ∧ respUrl r ∉ visited) →
      chooseNextUrl links visited resp = firstUnvisited links visited) := by
  refine ⟨fun u h => chooseNextUrl_mem h, ?_⟩
  rintro r rfl hinv
  simp only [chooseNextUrl]
  rw [if_neg]
  intro hc
  exact hinv ⟨by simpa using hc.1, by simpa using hc.2⟩

/-- Witness for C4: with links `["a", "b"]`, visited `["a"]`, and a model
response naming the invalid URL "x", the chooser falls back to the first
unvisited link in order, which is "b". -/
theorem claim_C4_chooser_witness :
    chooseNextUrl ["a", "b"] ["a"] (some "x") = firstUnvisited ["a", "b"] ["a"] ∧
    chooseNextUrl ["a", "b"] ["a"] (some "x") = some "b" :=
  ⟨(claim_C4_chooser ["a", "b"] ["a"] (some "x")).2 "x" rfl (by decide), by decide⟩

/-- C5: analyze_page never raises to its caller: whenever its try-body
fails with message `e`, the returned PageAnalysis embeds the error text
in its summary, has overall_impression "Analysis failed", and all list
fields empty. -/
theorem claim_C5_analyze_never_raises (url : String)
    (firstInvoke secondInvoke : Except String String) (e : String)
    (h : tryAnalyzePage url firstInvoke secondInvoke = .exn e) :
    analyzePage url firstInvoke secondInvoke = errorAnalysis url e ∧
    (analyzePage url firstInvoke secondInvoke).summary = "Error in analysis: " ++ e ∧
    (analyzePage url firstInvoke secondInvoke).overall_impression = "Analysis failed" ∧
    (analyzePage url firstInvoke secondInvoke).likes = [] ∧
    (analyzePage url firstInvoke secondInvoke).dislikes = [] ∧
    (analyzePage url firstInvoke secondInvoke).click_reasons = [] ∧
    (analyzePage url firstInvoke secondInvoke).next_expectations = [] := by
  simp [analyzePage, h, errorAnalysis]

/-- Witness for C5: a failing first invocation produces the in-band
failure analysis. -/
theorem claim_C5_witness :
    tryAnalyzePage "u" (Except.error "rate limited") (Except.ok "retry response") =
      PyResult.exn "string indices must be integers" ∧
    analyzePage "u" (Except.error "rate limited") (Except.ok "retry response") =
      errorAnalysis "u" "string indices must be integers" :=
  ⟨rfl, (claim_C5_analyze_never_raises "u" (Except.error "rate limited")
    (Except.ok "retry response") "string indices must be integers" rfl).1⟩

/-- C6: the claim describes the intended retry (`invoke` again with
`max_attempts=3` on truncated content), but the code's retry branch
evaluates `prompt["content"]` on a `str`, raising TypeError before the
second invocation; `analyze_page` therefore returns the failure analysis
even when a parseable second response would have been available. -/
theorem claim_C6_retry_never_invoked :
    analyzePage "u" (Except.error "rate_limit_error")
      (Except.ok "FINAL ASSESSMENT\n\nSummary: pricing plans listed") =
      errorAnalysis "u" "string indices must be integers" := rfl

/-- C7 (amended): when all `max_attempts ≥ 1` attempts fail, invoke never
returns normally; it surfaces the aggregated ValueError recording the last
cause exactly when the last failure is a rate-limit rejection, and
re-raises the bare last exception otherwise. -/
theorem claim_C7_invoke_exhaustion (attempt : ℕ → Except String String)
    (err : ℕ → String) (maxA : ℕ) (hmax : 1 ≤ maxA)
    (hfail : ∀ i, i < maxA → attempt i = .error (err i)) :
    invokeModel attempt maxA =
      (if strContainsCS (err (maxA - 1)) "rate_limit_error" = true then
        InvokeResult.raisedAggregate (aggMsg maxA (some (err (maxA - 1))))
      else InvokeResult.raisedLast (err (maxA - 1))) ∧
    ∀ content, invokeModel attempt maxA ≠ InvokeResult.ok content := by
  have h := invokeLoop_all_fail attempt err maxA hfail maxA 0 none (by omega) (by omega)
  refine ⟨h, fun content hok => ?_⟩
  rw [invokeModel, h] at hok
  split at hok
  · exact InvokeResult.noConfusion hok
  · exact InvokeResult.noConfusion hok

/-- Witness for C7: two rate-limited failures with `max_attempts = 2`
yield the aggregated error recording the last cause. -/
theorem claim_C7_witness :
    invokeModel (fun _ => Except.error "rate_limit_error: too many requests") 2 =
      InvokeResult.raisedAggregate
        (aggMsg 2 (some "rate_limit_error: too many requests")) := by
  have h := (claim_C7_invoke_exhaustion
    (fun _ => Except.error "rate_limit_error: too many requests")
    (fun _ => "rate_limit_error: too many requests") 2 (by omega) (fun i _ => rfl)).1
  rw [h, if_pos (by decide)]

/-- C7 counterexample: a single non-rate-limit failure ("boom") with
`max_attempts = 1` makes invoke re-raise the bare underlying exception —
not an aggregated error. -/
theorem claim_C7_counterexample :
    invokeModel (fun _ => Except.error "boom") 1 = InvokeResult.raisedLast "boom" ∧
    isAggregated (invokeModel (fun _ => Except.error "boom") 1) = false := by decide

/-- C8: for a persona with at least one need, recording a new (unvisited)
page's insights never decreases information coverage. -/
theorem claim_C8_coverage_monotone (p : Persona) (m : NavigationMemory)
    (url : String) (a : PageAnalysis) (hneeds : p.needs ≠ [])
    (hfresh : dictHasKey m.key_insights url = false) :
    informationCoverage p m ≤ informationCoverage p (updateMemory p m url a) := by
  have hv : dictValues (updateMemory p m url a).key_insights =
      dictValues m.key_insights ++ [insightsOf a] := by
    rw [updateMemory]
    exact dictValues_set_fresh _ _ _ hfresh
  have hlen : (coveredNeeds p m).length ≤
      (coveredNeeds p (updateMemory p m url a)).length := by
    unfold coveredNeeds
    rw [hv]
    apply List.Sublist.length_le
    apply List.monotone_filter_right
    intro need hc
    simp only [needCovered, List.any_append, Bool.or_eq_true]
    exact Or.inl hc
  rw [informationCoverage_eq_div, informationCoverage_eq_div]
  have hn : (0 : ℚ) < (p.needs.length : ℚ) := by
    exact_mod_cast List.length_pos.mpr hneeds
  rw [div_le_div_iff_of_pos_right hn]
  exact_mod_cast hlen

/-- Witness for C8: adding a page whose likes mention "pricing" to an
empty memory raises persPricing's coverage (from 0 to 1 ≥ 0). -/
theorem claim_C8_witness :
    informationCoverage persPricing emptyMemory ≤
      informationCoverage persPricing
        (updateMemory persPricing emptyMemory "u" analysisA1) :=
  claim_C8_coverage_monotone persPricing emptyMemory "u" analysisA1
    (by decide) (by decide)

/-- C9: relevance scores are clamped to [0, 1]; in particular a persona
with 5 interests and 5 needs that all occur in the scanned text scores
exactly 1.0, not 2.0. -/
theorem claim_C9_relevance_clamped (p : Persona) (a : PageAnalysis) :
    (0 ≤ relevanceScore p a ∧ relevanceScore p a ≤ 1) ∧
    (p.interests.length = 5 → p.needs.length = 5 →
      (∀ kw ∈ p.interests ++ p.needs, strContains (relevanceText a) kw = true) →
      relevanceScore p a = 1) := by
  constructor
  · constructor
    · simp only [relevanceScore]
      apply le_min
      · norm_num
      · rw [Rat.mkRat_eq_div]
        positivity
    · exact min_le_left _ _
  · intro hi hn hall
    simp only [relevanceScore]
    have h1 : matchCount (relevanceText a) p.interests = 5 := by
      rw [matchCount,
        List.filter_eq_self.mpr (fun kw hkw => hall kw (List.mem_append_left _ hkw)), hi]
    have h2 : matchCount (relevanceText a) p.needs = 5 := by
      rw [matchCount,
        List.filter_eq_self.mpr (fun kw hkw => hall kw (List.mem_append_right _ hkw)), hn]
    rw [h1, h2, Rat.mkRat_eq_div]
    push_cast
    norm_num [min_def]

/-- Witness for C9: a persona with 5+5 one-word keywords all present in
the summary scores exactly 1. -/
theorem claim_C9_witness : relevanceScore persTen analysisTen = 1 :=
  (claim_C9_relevance_clamped persTen analysisTen).2 (by decide) (by decide) (by decide)

/-- C10: navigate never returns an AnalysisReport containing visited
pages, so there are no report entries to slice: with at least one visited
page the `pages_analyzed` comprehension raises AttributeError reading
`self.memory.next_expectations` (persona_agent.py:362), and
`key_insights` — the list the slices would be taken from — is never
populated anyway (the write at line 73 is dead code); the only reports
returned come from runs that visited nothing, with `pages_analyzed = []`. -/
theorem claim_C10_no_report_pages :
    navigateRun persPricingDocs defaultExitCriteria envScenarioA "p1" 100 =
      PyResult.exn nextExpectationsAttrError ∧
    (navigateLoopRun persPricingDocs defaultExitCriteria envScenarioA emptyMemory
      "p1" 100).1.key_insights = [] ∧
    navigateRun persPricingDocs defaultExitCriteria envFetchFail "p1" 100 =
      PyResult.ok
        { persona_name := "Pat"
          start_url := "p1"
          pages_analyzed := []
          navigation_path := []
          exit_reason := "Error: fetch failed"
          information_coverage := 0
          found_ctas := []
          final_conclusion := "conclusion" } := by
  decide

end SiteAnalyzer
